import Mathlib

/-!
# AudioVisualizer (src/audio-visualizer/script.js)

A shallow embedding of the `AudioVisualizer` class: the fields of the object, the part of the
page and of the browser platform its methods touch, the methods themselves, and the
single-threaded event model in which they run (toggle clicks, settlements of the microphone
request, animation-frame callbacks).

Numbers that the script computes in floating point (bar heights) are modelled as exact
rationals; `1.2` is the rational `6/5`.
-/

namespace AudioVisualizer

/-! ## Data model -/

/-- One `div.bar` element of `#visualizer`: its `style.height` in pixels and whether its class
list holds `idle`. -/
structure Bar where
  height : ℚ
  idle : Bool
deriving DecidableEq

/-- An `AnalyserNode`: the audio context that made it and the two attributes the script sets.
`frequencyBinCount` is half of `fftSize`. -/
structure AnalyserNode where
  context : Nat
  fftSize : Nat
  smoothingTimeConstant : ℚ
deriving DecidableEq

/-- The platform bin count of an analyser: half the transform window. -/
def AnalyserNode.frequencyBinCount (a : AnalyserNode) : Nat := a.fftSize / 2

/-- A `MediaStreamAudioSourceNode`: the stream it reads and whether it is connected to the
analyser. -/
structure SourceNode where
  stream : Nat
  connected : Bool
deriving DecidableEq

/-- The `AudioVisualizer` object together with the page and platform state its methods touch.

Object fields (`this.*`): `audioContext`, `analyser`, `dataArray`, `source`, `animationId`,
`isActive`, `barCount`. Platform objects are referred to by their index in the platform lists.

Page: `bars` are the `.bar` children of `#visualizer`, `btnActive` is whether `#startBtn` has
class `active`.

Platform: `requests` counts `getUserMedia` promises not yet settled; `streams` has one entry
per granted `MediaStream`, true while its tracks are live; `contexts` one entry per
`AudioContext`, true while it is not closed; `sources` one entry per
`MediaStreamAudioSourceNode`; `frames` are the handles of the
requested animation-frame callbacks that have neither run nor been cancelled; `nextHandle` is
the handle the next `requestAnimationFrame` returns (handles are positive); `alerts` counts
the `alert` dialogs shown. -/
structure State where
  audioContext : Option Nat
  analyser : Option AnalyserNode
  dataArray : Option (List Nat)
  source : Option Nat
  animationId : Option Nat
  isActive : Bool
  barCount : Nat
  bars : List Bar
  btnActive : Bool
  requests : Nat
  streams : List Bool
  contexts : List Bool
  sources : List SourceNode
  frames : List Nat
  nextHandle : Nat
  alerts : Nat
deriving DecidableEq

/-! ## Methods -/

/-- The method `createBars`: empties `#visualizer` and appends `barCount` bars of height `4px`. -/
def createBars (s : State) : State :=
  { s with bars := List.replicate s.barCount { height := 4, idle := false } }

/-- The method `setIdleState(idle)`: adds or removes class `idle` on every bar. -/
def setIdleState (idle : Bool) (s : State) : State :=
  { s with bars := s.bars.map fun bar => { bar with idle := if idle then true else false } }

/-- The method `init`: creates the bars and starts in idle display mode (the click handler it
registers is the `click` event of the event model). -/
def init (s : State) : State :=
  setIdleState true (createBars s)

/-- The constructor followed by `init`, on a fresh page and platform. -/
def construct : State :=
  init
    { audioContext := none
      analyser := none
      dataArray := none
      source := none
      animationId := none
      isActive := false
      barCount := 12
      bars := []
      btnActive := false
      requests := 0
      streams := []
      contexts := []
      sources := []
      frames := []
      nextHandle := 1
      alerts := 0 }

/-- The platform call `analyser.getByteFrequencyData(array)`: the analyser's current
magnitudes `fresh` are copied into the array; the array keeps its length (extra magnitudes are
dropped, extra array elements are left as they were). -/
def getByteFrequencyData (fresh array : List Nat) : List Nat :=
  fresh.take array.length ++ array.drop fresh.length

/-- The body of the `bars.forEach` callback in `animate`, returning the height it writes:
sample `dataArray[index * step] || 0`, boost by `1.2` in the lower half of the bars, map
`0..255` linearly to `4..30`. -/
def barHeight (barCount : Nat) (dataArray : List Nat) (step index : Nat) : ℚ :=
  let dataIndex := index * step
  let value : ℚ := ((dataArray[dataIndex]?.getD 0 : Nat) : ℚ)
  let boost : ℚ := if (index : ℚ) < (barCount : ℚ) / 2 then 6 / 5 else 1
  let value := value * boost
  let minHeight : ℚ := 4
  let maxHeight : ℚ := 30
  minHeight + (value / 255) * (maxHeight - minHeight)

/-- The iteration `bars.forEach((bar, index) => ...)` from index `index` on, where the callback
rewrites the bar. -/
def forEachBar (f : Bar → Nat → Bar) : List Bar → Nat → List Bar
  | [], _ => []
  | bar :: rest, index => f bar index :: forEachBar f rest (index + 1)

/-- The method `animate`, where `fresh` is what the analyser delivers in this call.
Returns at once when not active. A null `analyser` or `dataArray` makes
`getByteFrequencyData` throw before anything is written. Otherwise every bar gets its new
height and the next frame is requested. (`Math.floor(length / barCount)` is natural-number
division; `barCount` is 12 throughout.) -/
def animate (fresh : List Nat) (s : State) : State :=
  if !s.isActive then s
  else
    match s.analyser, s.dataArray with
    | some _, some array =>
      let dataArray := getByteFrequencyData fresh array
      let step := dataArray.length / s.barCount
      { s with
        dataArray := some dataArray
        bars := forEachBar (fun bar index =>
          { bar with height := barHeight s.barCount dataArray step index }) s.bars 0
        animationId := some s.nextHandle
        frames := s.frames ++ [s.nextHandle]
        nextHandle := s.nextHandle + 1 }
    | _, _ => s

/-- The method `stop`. The three guards test truthiness: a number handle is truthy when it is
not `0`, an object reference always. -/
def stop (s : State) : State :=
  let s :=
    match s.animationId with
    | some handle =>
      if handle ≠ 0 then
        { s with frames := s.frames.filter (fun h => h ≠ handle), animationId := none }
      else s
    | none => s
  let s :=
    match s.source with
    | some node =>
      { s with
        sources := s.sources.modify (fun n => { n with connected := false }) node
        source := none }
    | none => s
  let s :=
    match s.audioContext with
    | some ctx => { s with contexts := s.contexts.set ctx false, audioContext := none }
    | none => s
  let s := { s with isActive := false, btnActive := false }
  let s := { s with bars := s.bars.map fun bar => { bar with height := 4 } }
  setIdleState true s

/-- The `catch` block of `start`: `console.error` and an `alert`. -/
def catchError (s : State) : State :=
  { s with alerts := s.alerts + 1 }

/-- The set-up statements of `start` after the microphone grant, as places where the platform
may throw. -/
inductive SetupStep where
  | newAudioContext
  | createAnalyser
  | configureAnalyser
  | createMediaStreamSource
  | connect
  | newUint8Array
deriving DecidableEq

/-- The method `start` up to its `await`: the microphone is requested and the method
suspends. -/
def start (s : State) : State :=
  { s with requests := s.requests + 1 }

/-- The method `start` resumed with a rejected microphone request: control goes to `catch`. -/
def startRejected (s : State) : State :=
  catchError { s with requests := s.requests - 1 }

/-- The session-construction statements of `start` (audio context, analyser, source, buffer),
run with the granted stream `stream`; `fail` names the statement at which the platform
throws, if any. The flag returned is `false` when a statement threw; the state returned is the
one reached at that point. -/
def buildSession (fail : Option SetupStep) (stream : Nat) (s : State) : Bool × State :=
  if fail = some .newAudioContext then (false, s)
  else
    let ctx := s.contexts.length
    let s := { s with contexts := s.contexts ++ [true], audioContext := some ctx }
    if fail = some .createAnalyser then (false, s)
    else
      let analyser : AnalyserNode := { context := ctx, fftSize := 2048, smoothingTimeConstant := 4 / 5 }
      let s := { s with analyser := some analyser }
      if fail = some .configureAnalyser then (false, s)
      else
        let analyser : AnalyserNode := { analyser with fftSize := 64, smoothingTimeConstant := 4 / 5 }
        let s := { s with analyser := some analyser }
        if fail = some .createMediaStreamSource then (false, s)
        else
          let node := s.sources.length
          let s := { s with
            sources := s.sources ++ [{ stream := stream, connected := false }]
            source := some node }
          if fail = some .connect then (false, s)
          else
            let s := { s with sources := s.sources.set node { stream := stream, connected := true } }
            if fail = some .newUint8Array then (false, s)
            else
              (true, { s with dataArray := some (List.replicate analyser.frequencyBinCount 0) })

/-- The method `start` resumed with a granted stream: session construction, then the UI
update and the first `animate()`; a throw during construction goes to `catch`. (At the call
of `animate()` the analyser and the buffer have just been assigned, so its throwing branch is
not taken there: see `buildSession_ok`.) -/
def startGranted (fail : Option SetupStep) (fresh : List Nat) (s : State) : State :=
  let stream := s.streams.length
  let s := { s with requests := s.requests - 1, streams := s.streams ++ [true] }
  match buildSession fail stream s with
  | (false, s) => catchError s
  | (true, s) =>
    let s := { s with isActive := true, btnActive := true }
    let s := setIdleState false s
    animate fresh s

/-- The method `toggle`: `stop()` when active, otherwise `start()` (which suspends at its
`await`). -/
def toggle (s : State) : State :=
  if s.isActive then stop s else start s

/-! ## Event model -/

/-- The callbacks the browser runs, one at a time: a click on `#startBtn`; the settlement of a
pending microphone request (granted, with the set-up statement that throws if any and the
analyser output of the first frame, or denied); the animation-frame callback with handle
`handle`, with the analyser output of that frame. -/
inductive Event where
  | click
  | grant (fail : Option SetupStep) (fresh : List Nat)
  | deny
  | frame (handle : Nat) (fresh : List Nat)

/-- One callback run to completion. A settlement happens only while a request is pending, a
frame callback only while its handle is pending. -/
def step (s : State) : Event → State
  | .click => toggle s
  | .grant fail fresh => if s.requests = 0 then s else startGranted fail fresh s
  | .deny => if s.requests = 0 then s else startRejected s
  | .frame handle fresh =>
    if handle ∈ s.frames then
      animate fresh { s with frames := s.frames.filter (fun h => h ≠ handle) }
    else s

/-- The state after a sequence of callbacks. -/
def run (es : List Event) (s : State) : State :=
  es.foldl step s

/-! ## The invariant of the event model -/

/-- The facts that hold between any two callbacks. -/
structure Inv (s : State) : Prop where
  barCount : s.barCount = 12
  bars : s.bars.length = 12
  handle : 1 ≤ s.nextHandle
  active : s.isActive = true →
    s.analyser.isSome = true ∧ s.dataArray.isSome = true
      ∧ ∃ h, s.animationId = some h ∧ h ≠ 0
  idle : s.isActive = false →
    s.animationId = none ∧ s.bars = List.replicate 12 { height := 4, idle := true }

/-! ## The per-frame mapping -/

theorem forEachBar_length (f : Bar → Nat → Bar) (bars : List Bar) (k : Nat) :
    (forEachBar f bars k).length = bars.length := by
  induction bars generalizing k with
  | nil => rfl
  | cons b rest ih => simp [forEachBar, ih]

theorem forEachBar_getElem? (f : Bar → Nat → Bar) (bars : List Bar) (k i : Nat) :
    (forEachBar f bars k)[i]? = (bars[i]?).map fun b => f b (k + i) := by
  induction bars generalizing k i with
  | nil => simp [forEachBar]
  | cons b rest ih =>
    cases i with
    | zero => simp [forEachBar]
    | succ j =>
      simp only [forEachBar, List.getElem?_cons_succ, ih]
      congr 1
      funext b
      congr 1
      omega

theorem getByteFrequencyData_same_length (fresh array : List Nat)
    (h : array.length = fresh.length) : getByteFrequencyData fresh array = fresh := by
  simp [getByteFrequencyData, h]

theorem getByteFrequencyData_length (fresh array : List Nat) :
    (getByteFrequencyData fresh array).length = array.length := by
  simp [getByteFrequencyData]
  omega

/-- What `animate` does in the active state with an analyser and a buffer. -/
theorem animate_active (fresh : List Nat) (s : State) (a : AnalyserNode) (array : List Nat)
    (hact : s.isActive = true) (han : s.analyser = some a) (harr : s.dataArray = some array) :
    animate fresh s =
      { s with
        dataArray := some (getByteFrequencyData fresh array)
        bars := forEachBar (fun bar index =>
          let data := getByteFrequencyData fresh array
          { bar with height := barHeight s.barCount data (data.length / s.barCount) index })
          s.bars 0
        animationId := some s.nextHandle
        frames := s.frames ++ [s.nextHandle]
        nextHandle := s.nextHandle + 1 } := by
  simp [animate, hact, han, harr]

/-- The height written to bar `i` of a 12-bar display, as a closed formula. -/
theorem barHeight_formula (data : List Nat) (step i : Nat) :
    barHeight 12 data step i =
      4 + ((if i < 6 then (6 / 5 : ℚ) else 1) * (((data[i * step]?).getD 0 : Nat) : ℚ) / 255)
        * 26 := by
  have hiff : ((i : ℚ) < (12 : ℚ) / 2) ↔ i < 6 := by
    rw [show ((12 : ℚ) / 2) = ((6 : Nat) : ℚ) by norm_num]
    exact Nat.cast_lt
  unfold barHeight
  by_cases h : i < 6
  · have h2 : (i : ℚ) < (12 : ℚ) / 2 := hiff.mpr h
    simp only [Nat.cast_ofNat, h2, h, if_true]
    ring
  · have h2 : ¬ (i : ℚ) < (12 : ℚ) / 2 := fun hh => h (hiff.mp hh)
    simp only [Nat.cast_ofNat, h2, h, if_false]
    ring

/-- The height `animate` writes to bar `i` when the analyser delivers `data`. -/
theorem animate_bar (s : State) (data array : List Nat) (a : AnalyserNode) (i : Nat)
    (hact : s.isActive = true) (han : s.analyser = some a) (harr : s.dataArray = some array)
    (hlen : array.length = data.length) (hcount : s.barCount = 12) (hi : i < s.bars.length) :
    ((animate data s).bars[i]?).map Bar.height =
      some (barHeight 12 data (data.length / 12) i) := by
  rw [animate_active data s a array hact han harr]
  simp only [forEachBar_getElem?, getByteFrequencyData_same_length data array hlen, hcount]
  rw [List.getElem?_eq_getElem hi]
  simp

/-- C1: for every frequency buffer `data` of length L delivered into the controller's buffer
and every bar index `i` in 0..11, one call of `animate` in the active state writes to bar `i`
the height `4 + (b_i * data[i * floor(L/12)] / 255) * 26`, with `b_i = 6/5` for `i < 6` and
`1` otherwise (a missing element reads as 0). With L = 32 the step is 2, and bar 5 with
`data[10] = 100` has boosted value 120 and height `4 + (120/255) * 26`, which rounds to 16.24
at two decimals. -/
theorem animate_writes_scaled_height (s : State) (data array : List Nat) (a : AnalyserNode)
    (i : Nat) (hact : s.isActive = true) (han : s.analyser = some a)
    (harr : s.dataArray = some array) (hlen : array.length = data.length)
    (hcount : s.barCount = 12) (hbars : s.bars.length = 12) (hi : i < 12) :
    ((animate data s).bars[i]?).map Bar.height =
        some (4 + ((if i < 6 then (6 / 5 : ℚ) else 1)
          * (((data[i * (data.length / 12)]?).getD 0 : Nat) : ℚ) / 255) * 26)
      ∧ (data.length = 32 → data[10]? = some 100 →
          data.length / 12 = 2
          ∧ (6 / 5 : ℚ) * ((100 : Nat) : ℚ) = 120
          ∧ ((animate data s).bars[5]?).map Bar.height = some (4 + (120 / 255) * 26)
          ∧ round ((4 + (120 / 255) * 26 : ℚ) * 100) = 1624) := by
  refine ⟨?_, ?_⟩
  · rw [animate_bar s data array a i hact han harr hlen hcount (by omega), barHeight_formula]
  · intro hL h10
    refine ⟨by omega, by norm_num, ?_, ?_⟩
    · rw [animate_bar s data array a 5 hact han harr hlen hcount (by omega), barHeight_formula,
        hL]
      simp only [show 5 * (32 / 12) = 10 by norm_num, h10]
      norm_num
    · rw [round_eq, Int.floor_eq_iff]
      constructor <;> norm_num

/-- C2: for every bar index `i < 12` and byte magnitude `v ≤ 255` read for that bar, the
height computed is in [4, 30] when the bar is not boosted (`6 ≤ i`); for a boosted bar
(`i < 6`) it is in [4, 30] when `v ≤ 212` and exceeds 30 exactly when `213 ≤ v`. -/
theorem barHeight_range (data : List Nat) (step i v : Nat) (hi : i < 12) (hv : v ≤ 255)
    (hread : (data[i * step]?).getD 0 = v) :
    (6 ≤ i → 4 ≤ barHeight 12 data step i ∧ barHeight 12 data step i ≤ 30)
      ∧ (i < 6 →
          (v ≤ 212 → 4 ≤ barHeight 12 data step i ∧ barHeight 12 data step i ≤ 30)
          ∧ (30 < barHeight 12 data step i ↔ 213 ≤ v)) := by
  have hv0 : (0 : ℚ) ≤ (v : ℚ) := Nat.cast_nonneg v
  rw [barHeight_formula, hread]
  refine ⟨?_, ?_⟩
  · intro h6
    have hq : (v : ℚ) ≤ 255 := by exact_mod_cast hv
    rw [if_neg (by omega)]
    constructor
    · linarith
    · linarith
  · intro h6
    rw [if_pos h6]
    refine ⟨?_, ?_⟩
    · intro h212
      have hq : (v : ℚ) ≤ 212 := by exact_mod_cast h212
      constructor
      · linarith
      · linarith
    · constructor
      · intro h
        by_contra hc
        have hq : (v : ℚ) ≤ 212 := by
          have : v ≤ 212 := by omega
          exact_mod_cast this
        linarith
      · intro h
        have hq : (213 : ℚ) ≤ (v : ℚ) := by exact_mod_cast h
        linarith

theorem stop_bars (s : State) :
    (stop s).bars = List.replicate s.bars.length { height := 4, idle := true } := by
  have h : (stop s).bars
      = (s.bars.map fun bar => { bar with height := 4 }).map
          fun bar => { bar with idle := true } := by
    rcases s with ⟨ac, an, da, so, aid, act, bc, bars, btn, rq, st, cx, sr, fr, nh, al⟩
    cases aid <;> cases so <;> cases ac <;> simp [stop, setIdleState] <;>
      split_ifs <;> simp
  rw [h]
  apply List.ext_getElem?
  intro i
  by_cases hi : i < s.bars.length
  · simp [List.getElem?_replicate, hi, List.getElem?_eq_getElem]
  · simp [List.getElem?_replicate, hi, List.getElem?_eq_none (le_of_not_lt hi)]

theorem stop_isActive (s : State) : (stop s).isActive = false := by
  simp [stop, setIdleState]

theorem stop_barCount (s : State) : (stop s).barCount = s.barCount := by
  rcases s with ⟨ac, an, da, so, aid, act, bc, bars, btn, rq, st, cx, sr, fr, nh, al⟩
  cases aid <;> cases so <;> cases ac <;> simp [stop, setIdleState] <;>
    split_ifs <;> simp

theorem stop_nextHandle (s : State) : (stop s).nextHandle = s.nextHandle := by
  rcases s with ⟨ac, an, da, so, aid, act, bc, bars, btn, rq, st, cx, sr, fr, nh, al⟩
  cases aid <;> cases so <;> cases ac <;> simp [stop, setIdleState] <;>
    split_ifs <;> simp

theorem stop_animationId (s : State) (h : s.animationId ≠ some 0) :
    (stop s).animationId = none := by
  rcases s with ⟨ac, an, da, so, aid, act, bc, bars, btn, rq, st, cx, sr, fr, nh, al⟩
  cases aid with
  | none => cases so <;> cases ac <;> simp [stop, setIdleState]
  | some k =>
    have hk : k ≠ 0 := by
      intro hk
      apply h
      rw [hk]
    cases so <;> cases ac <;> simp [stop, setIdleState, hk]

/-- Session construction writes only the four session fields and the platform objects. -/
theorem buildSession_frame (fail : Option SetupStep) (stream : Nat) (s : State) :
    (buildSession fail stream s).2.isActive = s.isActive
      ∧ (buildSession fail stream s).2.bars = s.bars
      ∧ (buildSession fail stream s).2.barCount = s.barCount
      ∧ (buildSession fail stream s).2.animationId = s.animationId
      ∧ (buildSession fail stream s).2.frames = s.frames
      ∧ (buildSession fail stream s).2.nextHandle = s.nextHandle
      ∧ (buildSession fail stream s).2.btnActive = s.btnActive := by
  unfold buildSession
  split_ifs
  all_goals simp

/-- A session construction that did not throw has assigned the analyser and a zero-filled
buffer of `frequencyBinCount = 32` bytes. -/
theorem buildSession_ok (fail : Option SetupStep) (stream : Nat) (s : State)
    (h : (buildSession fail stream s).1 = true) :
    (buildSession fail stream s).2.analyser
        = some { context := s.contexts.length, fftSize := 64, smoothingTimeConstant := 4 / 5 }
      ∧ (buildSession fail stream s).2.dataArray = some (List.replicate 32 0) := by
  unfold buildSession at h ⊢
  split_ifs at h ⊢
  simp_all [AnalyserNode.frequencyBinCount]

/-- A session construction that threw left the buffer as it was. -/
theorem buildSession_fail (fail : Option SetupStep) (stream : Nat) (s : State)
    (h : (buildSession fail stream s).1 = false) :
    (buildSession fail stream s).2.dataArray = s.dataArray := by
  unfold buildSession at h ⊢
  split_ifs at h ⊢ <;> simp_all

theorem buildSession_throws_iff (fail : Option SetupStep) (stream : Nat) (s : State) :
    (buildSession fail stream s).1 = false ↔ fail ≠ none := by
  unfold buildSession
  cases fail with
  | none => simp
  | some f => cases f <;> simp

/-! ## Lifecycle: the invariant of the event model -/

theorem inv_construct : Inv construct := by
  constructor <;> simp [construct, init, createBars, setIdleState]

theorem inv_stop (s : State) (h : Inv s) : Inv (stop s) := by
  have hid : s.animationId ≠ some 0 := by
    cases hact : s.isActive with
    | true =>
      obtain ⟨_, _, k, hk, hk0⟩ := h.active hact
      rw [hk]
      intro hc
      exact hk0 (Option.some.inj hc)
    | false =>
      rw [(h.idle hact).1]
      exact Option.noConfusion
  constructor
  · rw [stop_barCount, h.barCount]
  · rw [stop_bars, List.length_replicate, h.bars]
  · rw [stop_nextHandle]; exact h.handle
  · intro hact
    rw [stop_isActive] at hact
    exact Bool.noConfusion hact
  · intro _
    exact ⟨stop_animationId s hid, by rw [stop_bars, h.bars]⟩

/-- An active `animate` with analyser and buffer keeps the invariant. -/
theorem inv_animate (fresh : List Nat) (s : State) (h : Inv s) : Inv (animate fresh s) := by
  cases hact : s.isActive with
  | false =>
    have : animate fresh s = s := by simp [animate, hact]
    rw [this]; exact h
  | true =>
    obtain ⟨han, harr, _⟩ := h.active hact
    obtain ⟨a, ha⟩ := Option.isSome_iff_exists.mp han
    obtain ⟨array, hd⟩ := Option.isSome_iff_exists.mp harr
    rw [animate_active fresh s a array hact ha hd]
    constructor
    · exact h.barCount
    · simp only [forEachBar_length]; exact h.bars
    · have := h.handle
      simp only
      omega
    · intro _
      have := h.handle
      exact ⟨han, rfl, s.nextHandle, rfl, by omega⟩
    · intro hfalse
      simp only [hact] at hfalse
      exact Bool.noConfusion hfalse

theorem buildSession_analyser (fail : Option SetupStep) (stream : Nat) (s : State)
    (h : s.analyser.isSome = true) : (buildSession fail stream s).2.analyser.isSome = true := by
  unfold buildSession
  split_ifs
  all_goals simp [h]

theorem startGranted_throw (fail : Option SetupStep) (fresh : List Nat) (s : State)
    (h : (buildSession fail s.streams.length
      { s with requests := s.requests - 1, streams := s.streams ++ [true] }).1 = false) :
    startGranted fail fresh s =
      catchError (buildSession fail s.streams.length
        { s with requests := s.requests - 1, streams := s.streams ++ [true] }).2 := by
  dsimp only [startGranted]
  generalize buildSession fail s.streams.length
    { s with requests := s.requests - 1, streams := s.streams ++ [true] } = r at h ⊢
  obtain ⟨ok, s1⟩ := r
  simp only at h
  subst h
  rfl

theorem startGranted_ok (fail : Option SetupStep) (fresh : List Nat) (s : State)
    (h : (buildSession fail s.streams.length
      { s with requests := s.requests - 1, streams := s.streams ++ [true] }).1 = true) :
    startGranted fail fresh s =
      animate fresh (setIdleState false
        { (buildSession fail s.streams.length
            { s with requests := s.requests - 1, streams := s.streams ++ [true] }).2 with
          isActive := true, btnActive := true }) := by
  dsimp only [startGranted]
  generalize buildSession fail s.streams.length
    { s with requests := s.requests - 1, streams := s.streams ++ [true] } = r at h ⊢
  obtain ⟨ok, s1⟩ := r
  simp only at h
  subst h
  rfl

theorem inv_startGranted (fail : Option SetupStep) (fresh : List Nat) (s : State)
    (h : Inv s) : Inv (startGranted fail fresh s) := by
  have h0 : Inv ({ s with requests := s.requests - 1, streams := s.streams ++ [true] }) :=
    ⟨h.barCount, h.bars, h.handle, h.active, h.idle⟩
  generalize hs0 :
    ({ s with requests := s.requests - 1, streams := s.streams ++ [true] } : State) = s0 at h0
  obtain ⟨f1, f2, f3, f4, _, f6, _⟩ := buildSession_frame fail s.streams.length s0
  cases hb : (buildSession fail s.streams.length s0).1 with
  | false =>
    rw [startGranted_throw fail fresh s (by rw [hs0]; exact hb), hs0]
    have hfail := buildSession_fail fail s.streams.length s0 hb
    refine ⟨?_, ?_, ?_, ?_, ?_⟩
    · simp only [catchError, f3]; exact h0.barCount
    · simp only [catchError, f2]; exact h0.bars
    · simp only [catchError, f6]; exact h0.handle
    · intro hact
      have hact0 : s0.isActive = true := by rw [← f1]; exact hact
      obtain ⟨ha, hd, hid⟩ := h0.active hact0
      refine ⟨buildSession_analyser fail s.streams.length s0 ha, ?_, ?_⟩
      · simp only [catchError, hfail]; exact hd
      · simp only [catchError, f4]; exact hid
    · intro hact
      have hact0 : s0.isActive = false := by rw [← f1]; exact hact
      obtain ⟨hid, hbars⟩ := h0.idle hact0
      exact ⟨by simp only [catchError, f4]; exact hid, by simp only [catchError, f2]; exact hbars⟩
  | true =>
    rw [startGranted_ok fail fresh s (by rw [hs0]; exact hb), hs0]
    obtain ⟨ha, hd⟩ := buildSession_ok fail s.streams.length s0 hb
    have hmid : Inv { setIdleState false
        { (buildSession fail s.streams.length s0).2 with isActive := true, btnActive := true }
        with animationId := some s0.nextHandle } := by
      refine ⟨?_, ?_, ?_, ?_, ?_⟩
      · simp only [setIdleState, f3]; exact h0.barCount
      · simp only [setIdleState, List.length_map, f2]; exact h0.bars
      · simp only [setIdleState, f6]; exact h0.handle
      · intro _
        have := h0.handle
        simp only [setIdleState, ha, hd, Option.isSome_some, true_and]
        exact ⟨s0.nextHandle, rfl, by omega⟩
      · intro hact
        simp [setIdleState] at hact
    have hstep := inv_animate fresh _ hmid
    have hsame : animate fresh { setIdleState false
        { (buildSession fail s.streams.length s0).2 with isActive := true, btnActive := true }
        with animationId := some s0.nextHandle }
        = animate fresh (setIdleState false
        { (buildSession fail s.streams.length s0).2 with isActive := true, btnActive := true }) := by
      simp [animate, setIdleState, ha, hd]
    rw [← hsame]
    exact hstep

theorem inv_step (s : State) (e : Event) (h : Inv s) : Inv (step s e) := by
  cases e with
  | click =>
    simp only [step, toggle]
    split_ifs
    · exact inv_stop s h
    · exact ⟨h.barCount, h.bars, h.handle, h.active, h.idle⟩
  | grant fail fresh =>
    simp only [step]
    split_ifs
    · exact h
    · exact inv_startGranted fail fresh s h
  | deny =>
    simp only [step]
    split_ifs
    · exact h
    · exact ⟨h.barCount, h.bars, h.handle, h.active, h.idle⟩
  | frame handle fresh =>
    simp only [step]
    split_ifs
    · exact inv_animate fresh _ ⟨h.barCount, h.bars, h.handle, h.active, h.idle⟩
    · exact h

theorem inv_run (es : List Event) (s : State) (h : Inv s) : Inv (run es s) := by
  induction es generalizing s with
  | nil => exact h
  | cons e es ih => exact ih (step s e) (inv_step s e h)

/-- Every state the event model reaches from initialization satisfies the invariant. -/
theorem inv_reachable (es : List Event) : Inv (run es construct) :=
  inv_run es construct inv_construct

/-! ## Lifecycle: the claims -/

/-- C3: in every execution, once a `stop()` has returned (the click after `es1`, which found
the controller active), a frame callback that runs in a later state where `isActive` is
false changes no bar (all twelve stay at 4px, idle), requests no further frame and leaves
`animationId` null, whether or not its handle was cancelled by `stop()`. -/
theorem frame_after_stop_is_noop (es1 es2 : List Event) (handle : Nat) (fresh : List Nat)
    (hstop : (run es1 construct).isActive = true)
    (hstill : (run (es1 ++ Event.click :: es2) construct).isActive = false) :
    (step (run es1 construct) Event.click = stop (run es1 construct))
      ∧ (run (es1 ++ Event.click :: es2) construct).bars
          = List.replicate 12 { height := 4, idle := true }
      ∧ (step (run (es1 ++ Event.click :: es2) construct) (Event.frame handle fresh)).bars
          = List.replicate 12 { height := 4, idle := true }
      ∧ (∀ h, h ∈ (step (run (es1 ++ Event.click :: es2) construct)
            (Event.frame handle fresh)).frames →
          h ∈ (run (es1 ++ Event.click :: es2) construct).frames)
      ∧ (step (run (es1 ++ Event.click :: es2) construct) (Event.frame handle fresh)).nextHandle
          = (run (es1 ++ Event.click :: es2) construct).nextHandle
      ∧ (step (run (es1 ++ Event.click :: es2) construct) (Event.frame handle fresh)).animationId
          = none := by
  have hinv := inv_reachable (es1 ++ Event.click :: es2)
  generalize run (es1 ++ Event.click :: es2) construct = s at hstill hinv
  obtain ⟨hid, hbars⟩ := hinv.idle hstill
  refine ⟨by simp [step, toggle, hstop], hbars, ?_, ?_, ?_, ?_⟩
  · simp only [step]
    split_ifs
    · simp [animate, hstill, hbars]
    · exact hbars
  · intro h
    simp only [step]
    split_ifs
    · simp only [animate, hstill, Bool.not_false, if_true, List.mem_filter]
      exact fun hh => hh.1
    · exact id
  · simp only [step]
    split_ifs
    · simp [animate, hstill]
    · rfl
  · simp only [step]
    split_ifs
    · simp [animate, hstill, hid]
    · exact hid

/-- Witness for C3: after two clicks and two grants, the stopping click cancels frame 2 only;
frame 1 is still pending and its callback changes nothing. -/
theorem frame_after_stop_is_noop_witness :
    1 ∈ (run [Event.click, Event.click, Event.grant none [], Event.grant none [], Event.click]
        construct).frames
      ∧ (step (run ([Event.click, Event.click, Event.grant none [], Event.grant none []]
            ++ Event.click :: []) construct) (Event.frame 1 [])).bars
          = List.replicate 12 { height := 4, idle := true }
      ∧ (step (run ([Event.click, Event.click, Event.grant none [], Event.grant none []]
            ++ Event.click :: []) construct) (Event.frame 1 [])).animationId = none :=
  ⟨by decide,
    (frame_after_stop_is_noop
      [Event.click, Event.click, Event.grant none [], Event.grant none []] [] 1 []
      (by decide) (by decide)).2.2.1,
    (frame_after_stop_is_noop
      [Event.click, Event.click, Event.grant none [], Event.grant none []] [] 1 []
      (by decide) (by decide)).2.2.2.2.2⟩

/-- C7: right after initialization, and right after `stop()` called in any state the event
model reaches, there are exactly 12 bars, each 4px high and in idle display mode. -/
theorem idle_after_init_and_stop (es : List Event) :
    construct.bars = List.replicate 12 { height := 4, idle := true }
      ∧ (stop (run es construct)).bars = List.replicate 12 { height := 4, idle := true }
      ∧ (stop (run es construct)).bars.length = 12 := by
  refine ⟨by decide, ?_, ?_⟩
  · rw [stop_bars, (inv_reachable es).bars]
  · rw [stop_bars, List.length_replicate, (inv_reachable es).bars]

/-- C8: in every state between two callbacks, `animationId` is non-null exactly when
`isActive` is true. -/
theorem animationId_iff_isActive (es : List Event) :
    (run es construct).animationId ≠ none ↔ (run es construct).isActive = true := by
  have hinv := inv_reachable es
  constructor
  · intro h
    cases hact : (run es construct).isActive with
    | true => rfl
    | false => exact absurd (hinv.idle hact).1 h
  · intro hact
    obtain ⟨_, _, k, hk, _⟩ := hinv.active hact
    rw [hk]
    exact Option.noConfusion

/-- C6, evaluated at the failing input: two clicks before the first grant leave a request
pending while the controller is already active; the second grant then constructs a second
session (two open audio contexts, two live streams), and the following `stop()` closes only
the second context. -/
theorem second_grant_builds_session_while_active :
    (run [Event.click, Event.click, Event.grant none []] construct).isActive = true
      ∧ (run [Event.click, Event.click, Event.grant none []] construct).requests = 1
      ∧ (run [Event.click, Event.click, Event.grant none []] construct).audioContext = some 0
      ∧ (step (run [Event.click, Event.click, Event.grant none []] construct)
          (Event.grant none [])).audioContext = some 1
      ∧ (step (run [Event.click, Event.click, Event.grant none []] construct)
          (Event.grant none [])).contexts = [true, true]
      ∧ (step (run [Event.click, Event.click, Event.grant none []] construct)
          (Event.grant none [])).streams = [true, true]
      ∧ (run [Event.click, Event.click, Event.grant none [], Event.grant none [], Event.click]
          construct).contexts = [true, false]
      ∧ (run [Event.click, Event.click, Event.grant none [], Event.grant none [], Event.click]
          construct).isActive = false := by
  decide

/-! ## Instances at concrete inputs -/

/-- Witness for C1: a frame of a running session fed 32 magnitudes of 100 writes
`4 + (120/255) * 26` to bar 5. -/
theorem animate_writes_scaled_height_witness :
    ((animate (List.replicate 32 100)
        (run [Event.click, Event.grant none []] construct)).bars[5]?).map Bar.height
      = some (4 + (120 / 255) * 26) :=
  ((animate_writes_scaled_height (run [Event.click, Event.grant none []] construct)
    (List.replicate 32 100) (List.replicate 32 0)
    { context := 0, fftSize := 64, smoothingTimeConstant := 4 / 5 } 5
    (by decide) rfl (by decide) (by decide) (by decide) (by decide) (by decide)).2
    (by decide) (by decide)).2.2.1

/-- Witness for C2: a boosted bar reading the magnitude 213. -/
theorem barHeight_range_witness :
    30 < barHeight 12 [213] 0 0 :=
  ((barHeight_range [213] 0 0 213 (by decide) (by decide) (by decide)).2 (by decide)).2.mpr
    (by decide)

end AudioVisualizer
